import Mathlib

/-!
Verification of the kubeapply cluster-diff subsystem.

This file gives a shallow embedding of the `diff` and `kdiff` subcommands
(`cmd/kubeapply/subcmd/diff.go` and `cmd/kubeapply/subcmd/kdiff.go`) and of
the structured-diff data model, and proves the specified properties about
them.  External collaborators (cluster client, kubeconfig inspection,
filesystem, environment variables) are abstracted as an explicit environment
record whose fields stand for the outcomes of the corresponding calls; the
sequence of externally visible calls is recorded as an explicit event trace.
-/

/-! ## Structured-diff data model

The diff result types live in `pkg/cluster/diff`, which is not part of the
sources under verification; they are modelled from the spec (section 3):
a `ResourceKey` (namespace, kind, name), a change kind, and per-line hunks
carrying an operation tag and the literal text. -/

/-- Operation tag of one diff line: context, added or removed. -/
inductive LineOp where
  | context : LineOp
  | added : LineOp
  | removed : LineOp
deriving DecidableEq, Repr

/-- One line-level hunk: an operation tag plus the literal line text. -/
structure Hunk where
  op : LineOp
  text : String
deriving DecidableEq, Repr

/-- Modelled from the spec: `ResourceKey` uniquely identifies one Kubernetes
object within a diff by namespace, kind and name. -/
structure ResourceKey where
  ns : String
  kind : String
  name : String
deriving DecidableEq, Repr

/-- Change kind of one record: Added, Removed, Modified or
Unchanged-but-inspected. -/
inductive ChangeKind where
  | added : ChangeKind
  | removed : ChangeKind
  | modified : ChangeKind
  | unchanged : ChangeKind
deriving DecidableEq, Repr

/-- Modelled from the spec: one `ChangeRecord` of the structured result
(called `diff.Result` in the source tree): a resource key, a change kind and
the ordered hunks of the record. -/
structure Result where
  key : ResourceKey
  changeKind : ChangeKind
  hunks : List Hunk
deriving DecidableEq, Repr

/-- Modelled from the spec: the serialization envelope `diff.Results`, a
single named field holding the ordered record sequence. -/
structure Results where
  results : List Result
deriving DecidableEq, Repr

/-! ## StructuredDiffParser

`diff.DiffKube` (pkg/cluster/diff) is not under the verified sources; the
parser below is modelled from the spec (section 4.3): partition the raw diff
text, given line by line, into segments at the structural boundary markers
emitted by the comparison tool, classify each segment from the operation
tags of its lines, keep the hunks of a segment in original order, and sort
the records by resource key.  The spec leaves the exact boundary-detection
rule open; the model anchors it on the comparison tool's `diff ` header
lines, and derives the key name from the last word of that header. -/

/-- A structural boundary marker: the comparison tool's per-object header
line. -/
def isBoundary (l : String) : Bool :=
  l.startsWith "diff "

/-- Operation tag of one raw diff line. -/
def classifyOp (l : String) : LineOp :=
  if l.startsWith "+" then LineOp.added
  else if l.startsWith "-" then LineOp.removed
  else LineOp.context

/-- Turn one raw line into a hunk, keeping the literal text. -/
def mkHunk (l : String) : Hunk :=
  { op := classifyOp l, text := l }

/-- Accumulator pass of the segmentation: `cur` holds the current segment in
reverse; a boundary line closes the current segment and opens a new one. -/
def segmentLinesAux (cur : List String) : List String → List (List String)
  | [] => [cur.reverse]
  | l :: rest =>
    if isBoundary l then
      cur.reverse :: segmentLinesAux [l] rest
    else
      segmentLinesAux (l :: cur) rest

/-- Partition the raw diff lines into segments, one per object boundary;
the empty input yields no segments. -/
def segmentLines : List String → List (List String)
  | [] => []
  | l :: rest => segmentLinesAux [l] rest

/-- Modelled from the spec: derive the resource key from the segment's
boundary header line (the exact rule is left open by the spec; the model
takes the last word of the header as the object name). -/
def keyOfSegment (seg : List String) : ResourceKey :=
  { ns := "", kind := "", name := ((seg.headD "").splitOn " ").getLastD "" }

/-- Classify a segment from the operation tags of its lines: only added
lines → Added, only removed → Removed, a mix → Modified, no change lines →
Unchanged. -/
def classifySegment (seg : List String) : ChangeKind :=
  let hasAdd := seg.any (fun l => classifyOp l = LineOp.added)
  let hasRem := seg.any (fun l => classifyOp l = LineOp.removed)
  if hasAdd && hasRem then ChangeKind.modified
  else if hasAdd then ChangeKind.added
  else if hasRem then ChangeKind.removed
  else ChangeKind.unchanged

/-- Build the change record of one segment: its key, its classification and
one hunk per line, in original order. -/
def recordOfSegment (seg : List String) : Result :=
  { key := keyOfSegment seg
    changeKind := classifySegment seg
    hunks := seg.map mkHunk }

/-- Parse the raw diff lines into unsorted change records. -/
def parseDiffLines (lines : List String) : List Result :=
  (segmentLines lines).map recordOfSegment

/-- Lexicographic key order: namespace, then kind, then name. -/
def keyLE (a b : ResourceKey) : Bool :=
  if a.ns < b.ns then true
  else if b.ns < a.ns then false
  else if a.kind < b.kind then true
  else if b.kind < a.kind then false
  else !(b.name < a.name)

/-- Modelled from the spec: `shortDiff` truncates each record's hunks to a
short summary; the model keeps the first hunk only. -/
def truncateRecord (r : Result) : Result :=
  { r with hunks := r.hunks.take 1 }

/-- Modelled from the spec: the parsing stage of `diff.DiffKube`
(pkg/cluster/diff is not under the verified sources): segment, classify,
sort by resource key, and truncate when `shortDiff` is set. -/
def diffKubeParse (lines : List String) (shortDiff : Bool) : List Result :=
  let recs := (parseDiffLines lines).mergeSort (fun a b => keyLE a.key b.key)
  if shortDiff then recs.map truncateRecord else recs

/-- All line texts claimed by a record list, in record order. -/
def claimedLines (rs : List Result) : List String :=
  rs.flatMap (fun r => r.hunks.map Hunk.text)

/-! ## JSON serialization

Modelled from the spec (sections 3 and 4.4): the machine rendering wraps the
record sequence in the `Results` envelope and serializes it as indented
JSON with a stable top-level shape.  `encoding/json.MarshalIndent` itself is
external; the renderer below models its indented output at the granularity
the spec describes. -/

/-- Escape the characters of a JSON string literal (quotes and
backslashes). -/
def jsonEscapeChars : List Char → String
  | [] => ""
  | c :: cs =>
    (if c = '\"' then "\\\""
     else if c = '\\' then "\\\\"
     else String.singleton c) ++ jsonEscapeChars cs

/-- Escape a string for a JSON string literal (quotes and backslashes). -/
def jsonEscape (s : String) : String :=
  jsonEscapeChars s.data

/-- Render a JSON string literal. -/
def renderString (s : String) : String :=
  "\"" ++ jsonEscape s ++ "\""

/-- `n` spaces of indentation. -/
def spacesN (n : Nat) : String :=
  String.join (List.replicate n " ")

/-- Join already-rendered pieces with a separator. -/
def joinSep (sep : String) : List String → String
  | [] => ""
  | [x] => x
  | x :: y :: xs => x ++ sep ++ joinSep sep (y :: xs)

/-- Render a JSON object at indentation `ind` from already-rendered field
values. -/
def renderObj (ind : Nat) (fields : List (String × String)) : String :=
  match fields with
  | [] => "\x7b\x7d"
  | _ =>
    "\x7b\n" ++
      joinSep ",\n"
        (fields.map (fun f => spacesN (ind + 2) ++ renderString f.1 ++ ": " ++ f.2)) ++
      "\n" ++ spacesN ind ++ "\x7d"

/-- Render a JSON array at indentation `ind` from already-rendered items. -/
def renderArr (ind : Nat) (items : List String) : String :=
  match items with
  | [] => "[]"
  | _ =>
    "[\n" ++ joinSep ",\n" (items.map (fun s => spacesN (ind + 2) ++ s)) ++
      "\n" ++ spacesN ind ++ "]"

/-- JSON name of a line operation. -/
def opName : LineOp → String
  | LineOp.context => "context"
  | LineOp.added => "added"
  | LineOp.removed => "removed"

/-- JSON name of a change kind. -/
def changeKindName : ChangeKind → String
  | ChangeKind.added => "added"
  | ChangeKind.removed => "removed"
  | ChangeKind.modified => "modified"
  | ChangeKind.unchanged => "unchanged"

/-- Render one hunk as a JSON object. -/
def renderHunkJson (ind : Nat) (h : Hunk) : String :=
  renderObj ind [("op", renderString (opName h.op)), ("text", renderString h.text)]

/-- Render one change record as a JSON object. -/
def renderResultJson (ind : Nat) (r : Result) : String :=
  renderObj ind
    [("namespace", renderString r.key.ns),
     ("kind", renderString r.key.kind),
     ("name", renderString r.key.name),
     ("changeKind", renderString (changeKindName r.changeKind)),
     ("hunks", renderArr (ind + 2) (r.hunks.map (renderHunkJson (ind + 4))))]

/-- Serialize the `Results` envelope as indented JSON: one top-level object
with the single named field holding the ordered record array. -/
def marshalResults (w : Results) : String :=
  renderObj 0 [("results", renderArr 2 (w.results.map (renderResultJson 4)))]

/-! ## The kdiff subcommand

Embedding of `kdiffRun` (cmd/kubeapply/subcmd/kdiff.go).  `diff.DiffKube`
is an external call from this file's point of view; the environment records
its outcome, and the trace records the calls `kdiffRun` makes. -/

/-- Externally visible actions of `kdiffRun`. -/
inductive KdiffEvent where
  | diffKube (old new : String) (shortDiff : Bool) : KdiffEvent
  | println (s : String) : KdiffEvent
deriving DecidableEq, Repr

/-- Environment of one `kdiffRun` invocation: the outcome of
`diff.DiffKube` for given paths and short flag. -/
structure KdiffEnv where
  diffKube : String → String → Bool → Except String (List Result)

/-- Embedding of Go's `strconv.ParseBool`. -/
def parseBoolGo (s : String) : Except String Bool :=
  if ["1", "t", "T", "TRUE", "true", "True"].contains s then Except.ok true
  else if ["0", "f", "F", "FALSE", "false", "False"].contains s then Except.ok false
  else Except.error ("strconv.ParseBool: parsing " ++ s ++ ": invalid syntax")

/-- Embedding of `kdiffRun`: reject argument lists whose length is not two,
parse an optional third argument into `shortDiff` (guarded by a length-3
test), call `diff.DiffKube`, wrap the records in the `Results` envelope and
print the indented JSON. -/
def kdiffRun (env : KdiffEnv) (args : List String) :
    Except String Unit × List KdiffEvent :=
  if args.length ≠ 2 then
    (Except.error "Expected exactly two arguments", [])
  else
    let sdStep : Except String Bool :=
      if args.length = 3 then parseBoolGo (args.getD 2 "") else Except.ok false
    match sdStep with
    | Except.error e => (Except.error e, [])
    | Except.ok shortDiff =>
      match env.diffKube (args.getD 0 "") (args.getD 1 "") shortDiff with
      | Except.error e =>
        (Except.error e, [KdiffEvent.diffKube (args.getD 0 "") (args.getD 1 "") shortDiff])
      | Except.ok results =>
        let wrappedResults : Results := { results := results }
        (Except.ok (),
         [KdiffEvent.diffKube (args.getD 0 "") (args.getD 1 "") shortDiff,
          KdiffEvent.println (marshalResults wrappedResults)])

/-! ## The diff subcommand

Embedding of `diffClusterPath` and `execDiff` (cmd/kubeapply/subcmd/diff.go).
Configuration loading, version checking, expansion, the filesystem, the
KUBECONFIG environment variable, kubeconfig inspection and the cluster
client are external calls; the environment records their outcomes and the
trace records the calls made. -/

/-- The fields of `config.ClusterConfig` the diff path reads or writes. -/
structure ClusterConfig where
  cluster : String
  uid : String
  expandedPath : String
  kubeConfigPath : String
  subpaths : List String
  serverSideApply : Bool
deriving DecidableEq, Repr

/-- The fields of `cluster.ClusterClientConfig` set by `execDiff`. -/
structure ClusterClientConfig where
  checkApplyConsistency : Bool
  debug : Bool
  useLocks : Bool
deriving DecidableEq, Repr

/-- Externally visible actions of the diff path. -/
inductive DiffEvent where
  | kubeconfigCheck (kubeConfig cluster : String) : DiffEvent
  | newClient (cfg : ClusterClientConfig) : DiffEvent
  | getNamespaceUID (ns : String) : DiffEvent
  | diffCall : DiffEvent
  | diffStructuredCall : DiffEvent
  | closeClient : DiffEvent
  | printFull (rs : List Result) : DiffEvent
  | logInfo (msg : String) : DiffEvent
  | logError (msg : String) : DiffEvent
deriving DecidableEq, Repr

/-- The triple returned by `execDiff`: structured results (a nil slice is
`none`), raw diff text, and error. -/
structure ExecDiffTriple where
  results : Option (List Result)
  rawDiffs : String
  err : Option String
deriving DecidableEq, Repr

/-- Environment of one `diffClusterPath` invocation: outcomes of every
external call it can make. -/
structure DiffEnv where
  loadClusterConfig : Except String ClusterConfig
  checkVersion : Option String
  expandCluster : Option String
  dirExists : Except String Bool
  kubeEnvVar : String
  kubeconfigMatchesCluster : String → String → Bool
  debug : Bool
  newClientErr : Option String
  getNamespaceUID : String → Except String String
  diffResult : String × Option String
  diffStructuredResult : Option (List Result) × Option String

/-- The command-line flags of the diff subcommand. -/
structure DiffFlags where
  expand : Bool
  kubeConfig : String
  simpleOutput : Bool
  subpaths : List String
deriving DecidableEq, Repr

/-- The identifier-mismatch error message of `execDiff`. -/
def uidMismatchMsg (recorded actual : String) : String :=
  "Kubeapply config does not match this cluster (wrong kube context?): " ++
    "kube-system uids do not match (" ++ recorded ++ "!=" ++ actual ++ ")"

/-- The kubeconfig-mismatch error message of `diffClusterPath`. -/
def kubeconfigMismatchMsg (kubeConfig cluster : String) : String :=
  "Kubeconfig in " ++ kubeConfig ++ " does not appear to reference cluster " ++ cluster

/-- The missing-kubeconfig error message of `diffClusterPath`. -/
def noKubeconfigMsg : String :=
  "Must either set --kubeconfig flag or KUBECONFIG env variable"

/-- The human-readable hint logged when the diff invocation fails. -/
def diffHintMsg : String :=
  "Try re-running with --simple-output, then with --debug to see verbose " ++
    "output. Note that diffs will not work if target namespace(s) don't exist yet."

/-- The diff/diff-structured tail of `execDiff`, reached once the client is
built and the identifier guard has passed. -/
def execDiffRun (env : DiffEnv) (simpleOutput : Bool) :
    ExecDiffTriple × List DiffEvent :=
  if simpleOutput then
    ({ results := none, rawDiffs := env.diffResult.1, err := env.diffResult.2 },
     [DiffEvent.diffCall, DiffEvent.closeClient])
  else
    ({ results := env.diffStructuredResult.1, rawDiffs := "",
       err := env.diffStructuredResult.2 },
     [DiffEvent.diffStructuredCall, DiffEvent.closeClient])

/-- Embedding of `execDiff`: build the cluster client with `UseLocks`
hard-coded to `false`; if the config records a UID, fetch the live
`kube-system` namespace UID and bail on mismatch; then run `Diff` (simple
output) or `DiffStructured`. The deferred `Close` is the last event on
every path after the client is built. -/
def execDiff (env : DiffEnv) (clusterConfig : ClusterConfig) (simpleOutput : Bool) :
    ExecDiffTriple × List DiffEvent :=
  let cfg : ClusterClientConfig :=
    { checkApplyConsistency := false, debug := env.debug, useLocks := false }
  match env.newClientErr with
  | some e => ({ results := none, rawDiffs := "", err := some e }, [DiffEvent.newClient cfg])
  | none =>
    if clusterConfig.uid ≠ "" then
      match env.getNamespaceUID "kube-system" with
      | Except.error e =>
        ({ results := none, rawDiffs := "", err := some e },
         [DiffEvent.newClient cfg, DiffEvent.getNamespaceUID "kube-system",
          DiffEvent.closeClient])
      | Except.ok actualUID =>
        if clusterConfig.uid ≠ actualUID then
          ({ results := none, rawDiffs := "",
             err := some (uidMismatchMsg clusterConfig.uid actualUID) },
           [DiffEvent.newClient cfg, DiffEvent.getNamespaceUID "kube-system",
            DiffEvent.closeClient])
        else
          let rt := execDiffRun env simpleOutput
          (rt.1, DiffEvent.newClient cfg :: DiffEvent.getNamespaceUID "kube-system" :: rt.2)
    else
      let rt := execDiffRun env simpleOutput
      (rt.1, DiffEvent.newClient cfg :: rt.2)

/-- The kubeconfig resolution chain of `diffClusterPath`: the explicit
`--kubeconfig` flag when non-empty, else the `KUBECONFIG` environment
variable. -/
def resolvedKubeconfig (env : DiffEnv) (flags : DiffFlags) : String :=
  if flags.kubeConfig ≠ "" then flags.kubeConfig else env.kubeEnvVar

/-- Embedding of `diffClusterPath`: load and version-check the cluster
config, optionally expand, check the expanded path exists, resolve the
kubeconfig (flag, then environment, then error), verify the kubeconfig
references the expected cluster, run `execDiff`, and print the results; on
a diff error, log it plus the namespace hint and return it unmodified. -/
def diffClusterPath (env : DiffEnv) (flags : DiffFlags) :
    Option String × List DiffEvent :=
  match env.loadClusterConfig with
  | Except.error e => (some e, [])
  | Except.ok clusterConfig =>
    match env.checkVersion with
    | some e => (some e, [])
    | none =>
      match (if flags.expand then env.expandCluster else none) with
      | some e => (some e, [])
      | none =>
        let t0 := [DiffEvent.logInfo ("Diffing cluster " ++ clusterConfig.cluster)]
        match env.dirExists with
        | Except.error e => (some e, t0)
        | Except.ok false =>
          (some ("Expanded path " ++ clusterConfig.expandedPath ++ " does not exist"), t0)
        | Except.ok true =>
          let kubeConfig := resolvedKubeconfig env flags
          if kubeConfig = "" then
            (some noKubeconfigMsg, t0)
          else
            let t1 := t0 ++ [DiffEvent.kubeconfigCheck kubeConfig clusterConfig.cluster]
            if ¬ env.kubeconfigMatchesCluster kubeConfig clusterConfig.cluster then
              (some (kubeconfigMismatchMsg kubeConfig clusterConfig.cluster), t1)
            else
              let clusterConfig' :=
                { clusterConfig with
                    kubeConfigPath := kubeConfig, subpaths := flags.subpaths }
              let rt := execDiff env clusterConfig' flags.simpleOutput
              match rt.1.err with
              | some e =>
                (some e,
                 t1 ++ rt.2 ++
                   [DiffEvent.logError ("Error running diff: " ++ e),
                    DiffEvent.logInfo diffHintMsg])
              | none =>
                match rt.1.results with
                | some rs => (none, t1 ++ rt.2 ++ [DiffEvent.printFull rs])
                | none =>
                  (none,
                   t1 ++ rt.2 ++
                     [DiffEvent.logInfo ("Raw diff results:\n" ++ rt.1.rawDiffs)])

/-! ## Concrete witness data -/

/-- A sample cluster configuration with a recorded identifier. -/
def ccSample : ClusterConfig :=
  { cluster := "prod-east", uid := "abc-123", expandedPath := "/tmp/expanded",
    kubeConfigPath := "", subpaths := [], serverSideApply := false }

/-- A sample cluster configuration without a recorded identifier. -/
def ccNoUID : ClusterConfig :=
  { ccSample with uid := "" }

/-- A baseline environment in which every external call succeeds and the
live identifier equals the recorded one. -/
def envBase : DiffEnv :=
  { loadClusterConfig := Except.ok ccSample
    checkVersion := none
    expandCluster := none
    dirExists := Except.ok true
    kubeEnvVar := "/home/user/.kube/config"
    kubeconfigMatchesCluster := fun _ _ => true
    debug := false
    newClientErr := none
    getNamespaceUID := fun _ => Except.ok "abc-123"
    diffResult := ("raw diff text", none)
    diffStructuredResult := (some [], none) }

/-- Environment whose kubeconfig never references the expected cluster. -/
def envNoMatch : DiffEnv :=
  { envBase with kubeconfigMatchesCluster := fun _ _ => false }

/-- Environment whose live identifier differs from the recorded one. -/
def envBadUID : DiffEnv :=
  { envBase with getNamespaceUID := fun _ => Except.ok "xyz-789" }

/-- Environment with no `KUBECONFIG` environment variable set. -/
def envNoKube : DiffEnv :=
  { envBase with kubeEnvVar := "" }

/-- Environment whose structured diff invocation fails. -/
def envDiffErr : DiffEnv :=
  { envBase with diffStructuredResult := (none, some "boom") }

/-- Flags with an explicit kubeconfig path. -/
def flagsKC : DiffFlags :=
  { expand := false, kubeConfig := "/kc", simpleOutput := false, subpaths := [] }

/-- Flags with no explicit kubeconfig path. -/
def flagsEmpty : DiffFlags :=
  { expand := false, kubeConfig := "", simpleOutput := false, subpaths := [] }

/-- A kdiff environment whose `DiffKube` call returns no records. -/
def envKdiff : KdiffEnv :=
  { diffKube := fun _ _ _ => Except.ok [] }

/-! ## Parser lemmas -/

/-- The accumulator pass conserves lines: flattening its segments returns
the reversed accumulator followed by the remaining input. -/
theorem segmentLinesAux_flatten (rest : List String) :
    ∀ cur : List String, (segmentLinesAux cur rest).flatten = cur.reverse ++ rest := by
  induction rest with
  | nil =>
    intro cur
    simp [segmentLinesAux]
  | cons l rest ih =>
    intro cur
    by_cases h : isBoundary l
    · simp [segmentLinesAux, h, ih]
    · simp [segmentLinesAux, h, ih]

/-- Segmentation conserves lines: flattening the segments gives back the
input lines in order. -/
theorem segmentLines_flatten (lines : List String) :
    (segmentLines lines).flatten = lines := by
  cases lines with
  | nil => simp [segmentLines]
  | cons l rest => simp [segmentLines, segmentLinesAux_flatten]

/-- The unsorted parse conserves lines exactly, in order. -/
theorem claimedLines_parseDiffLines (lines : List String) :
    claimedLines (parseDiffLines lines) = lines := by
  unfold claimedLines parseDiffLines
  rw [List.flatMap_map]
  have h : (fun seg => ((recordOfSegment seg).hunks.map Hunk.text)) =
      fun seg : List String => seg := by
    funext seg
    simp [recordOfSegment, mkHunk, List.map_map, Function.comp_def]
  rw [h]
  simpa [List.flatMap] using segmentLines_flatten lines

/-- Claim C7: for every raw diff input, every line of the input appears in
exactly one change record's hunks in the parser's output — the lines claimed
by all records together are a permutation of the input lines, so no line is
dropped and no two records claim the same line occurrence. -/
theorem diffKube_line_conservation (lines : List String) :
    (claimedLines (diffKubeParse lines false)).Perm lines := by
  have h1 : diffKubeParse lines false =
      (parseDiffLines lines).mergeSort (fun a b => keyLE a.key b.key) := by
    simp [diffKubeParse]
  rw [h1]
  have h2 :=
    (List.mergeSort_perm (parseDiffLines lines)
      (fun a b => keyLE a.key b.key)).flatMap_right
      (fun r : Result => r.hunks.map Hunk.text)
  have h3 := claimedLines_parseDiffLines lines
  unfold claimedLines at h3 ⊢
  rw [h3] at h2
  exact h2

/-! ## Identity-guard theorems -/

/-- Claim C1: when the cluster configuration records a non-empty identifier
and the cluster client is built, `execDiff` fetches the live identifier of
the `kube-system` namespace, and on a mismatch with the recorded value it
returns the mismatch error without invoking any diff; when the recorded
identifier is empty, no live identifier lookup is performed. -/
theorem execDiff_uid_guard (env : DiffEnv) (cc : ClusterConfig) (so : Bool) :
    (cc.uid = "" → ∀ ns, DiffEvent.getNamespaceUID ns ∉ (execDiff env cc so).2)
    ∧ (cc.uid ≠ "" → env.newClientErr = none →
        DiffEvent.getNamespaceUID "kube-system" ∈ (execDiff env cc so).2
        ∧ ∀ a, env.getNamespaceUID "kube-system" = Except.ok a → cc.uid ≠ a →
            (execDiff env cc so).1.err = some (uidMismatchMsg cc.uid a)
            ∧ DiffEvent.diffCall ∉ (execDiff env cc so).2
            ∧ DiffEvent.diffStructuredCall ∉ (execDiff env cc so).2) := by
  constructor
  · intro huid ns
    cases hnc : env.newClientErr with
    | some e => simp [execDiff, hnc]
    | none =>
      simp only [execDiff, hnc, huid, execDiffRun]
      cases so <;> simp
  · intro huid hnc
    constructor
    · cases hns : env.getNamespaceUID "kube-system" with
      | error e => simp [execDiff, hnc, huid, hns]
      | ok actual =>
        by_cases heq : cc.uid = actual
        · have hne : actual ≠ "" := by rw [← heq]; exact huid
          simp [execDiff, hnc, huid, hns, heq, hne]
        · simp [execDiff, hnc, huid, hns, heq]
    · intro a ha hne
      simp only [execDiff, hnc, huid, ha, if_pos, ne_eq, not_false_iff]
      simp [huid, hne]

/-- Witness for C1: with recorded identifier `abc-123` and live identifier
`xyz-789`, the live lookup happens, the mismatch error is returned and no
diff is invoked. -/
theorem execDiff_uid_guard_witness :
    DiffEvent.getNamespaceUID "kube-system" ∈ (execDiff envBadUID ccSample false).2
    ∧ (execDiff envBadUID ccSample false).1.err =
        some (uidMismatchMsg "abc-123" "xyz-789")
    ∧ DiffEvent.diffCall ∉ (execDiff envBadUID ccSample false).2
    ∧ DiffEvent.diffStructuredCall ∉ (execDiff envBadUID ccSample false).2 := by
  have h := (execDiff_uid_guard envBadUID ccSample false).2 (by decide) rfl
  have h2 := h.2 "xyz-789" rfl (by decide)
  exact ⟨h.1, h2.1, h2.2.1, h2.2.2⟩

/-- Claim C2: when the resolved kubeconfig does not reference the expected
cluster name, `diffClusterPath` returns the identity-mismatch error and no
diff is executed — no diff invocation and no cluster client construction
appear in the trace. -/
theorem diffClusterPath_kubeconfig_mismatch (env : DiffEnv) (flags : DiffFlags)
    (cc : ClusterConfig)
    (hload : env.loadClusterConfig = Except.ok cc)
    (hver : env.checkVersion = none)
    (hexp : flags.expand = true → env.expandCluster = none)
    (hdir : env.dirExists = Except.ok true)
    (hkc : resolvedKubeconfig env flags ≠ "")
    (hmatch :
      env.kubeconfigMatchesCluster (resolvedKubeconfig env flags) cc.cluster = false) :
    (diffClusterPath env flags).1 =
      some (kubeconfigMismatchMsg (resolvedKubeconfig env flags) cc.cluster)
    ∧ DiffEvent.diffCall ∉ (diffClusterPath env flags).2
    ∧ DiffEvent.diffStructuredCall ∉ (diffClusterPath env flags).2
    ∧ ∀ cfg, DiffEvent.newClient cfg ∉ (diffClusterPath env flags).2 := by
  have hexp' : (if flags.expand then env.expandCluster else none) = none := by
    cases hfe : flags.expand with
    | true => exact hexp hfe
    | false => simp
  simp [diffClusterPath, hload, hver, hexp', hdir, hkc, hmatch]

/-- Witness for C2: with an environment whose kubeconfig never references
the expected cluster, the mismatch error comes back and no diff runs. -/
theorem diffClusterPath_kubeconfig_mismatch_witness :
    (diffClusterPath envNoMatch flagsKC).1 =
      some (kubeconfigMismatchMsg (resolvedKubeconfig envNoMatch flagsKC)
        ccSample.cluster)
    ∧ DiffEvent.diffCall ∉ (diffClusterPath envNoMatch flagsKC).2
    ∧ DiffEvent.diffStructuredCall ∉ (diffClusterPath envNoMatch flagsKC).2 := by
  have h := diffClusterPath_kubeconfig_mismatch envNoMatch flagsKC ccSample rfl rfl
    (fun _ => rfl) rfl (by decide) rfl
  exact ⟨h.1, h.2.1, h.2.2.1⟩

/-- If the recorded identifier is non-empty and disagrees with every live
identifier the lookup can return, `execDiff` never invokes a diff. -/
theorem execDiff_no_diff_of_uid_mismatch (env : DiffEnv) (cc : ClusterConfig)
    (so : Bool)
    (huid : cc.uid ≠ "")
    (hne : ∀ a, env.getNamespaceUID "kube-system" = Except.ok a → cc.uid ≠ a) :
    DiffEvent.diffCall ∉ (execDiff env cc so).2
    ∧ DiffEvent.diffStructuredCall ∉ (execDiff env cc so).2 := by
  cases hnc : env.newClientErr with
  | some e => simp [execDiff, hnc]
  | none =>
    cases hns : env.getNamespaceUID "kube-system" with
    | error e => simp [execDiff, hnc, huid, hns]
    | ok actual =>
      have h := hne actual hns
      simp [execDiff, hnc, huid, hns, h]

/-- Claim C3: identity verification strictly precedes diff execution — if
the kubeconfig check fails for whichever cluster config is loaded, or the
recorded identifier is non-empty and disagrees with whatever the live
lookup returns, the underlying diff mechanism is never invoked. -/
theorem identity_checks_precede_diff (env : DiffEnv) (flags : DiffFlags)
    (h : (∀ cc, env.loadClusterConfig = Except.ok cc →
            env.kubeconfigMatchesCluster (resolvedKubeconfig env flags) cc.cluster
              = false)
       ∨ (∀ cc, env.loadClusterConfig = Except.ok cc →
            cc.uid ≠ "" ∧ ∀ a, env.getNamespaceUID "kube-system" = Except.ok a →
              cc.uid ≠ a)) :
    DiffEvent.diffCall ∉ (diffClusterPath env flags).2
    ∧ DiffEvent.diffStructuredCall ∉ (diffClusterPath env flags).2 := by
  cases hload : env.loadClusterConfig with
  | error e => simp [diffClusterPath, hload]
  | ok cc =>
    cases hver : env.checkVersion with
    | some e => simp [diffClusterPath, hload, hver]
    | none =>
      cases hexp : (if flags.expand then env.expandCluster else none) with
      | some e => simp [diffClusterPath, hload, hver, hexp]
      | none =>
        cases hdir : env.dirExists with
        | error e => simp [diffClusterPath, hload, hver, hexp, hdir]
        | ok b =>
          cases b with
          | false => simp [diffClusterPath, hload, hver, hexp, hdir]
          | true =>
            by_cases hkc : resolvedKubeconfig env flags = ""
            · simp [diffClusterPath, hload, hver, hexp, hdir, hkc]
            · cases h with
              | inl hmm =>
                have hm := hmm cc hload
                simp [diffClusterPath, hload, hver, hexp, hdir, hkc, hm]
              | inr huid =>
                have hu := huid cc hload
                by_cases hm :
                    env.kubeconfigMatchesCluster (resolvedKubeconfig env flags)
                      cc.cluster = false
                · simp [diffClusterPath, hload, hver, hexp, hdir, hkc, hm]
                · have hm' :
                      env.kubeconfigMatchesCluster (resolvedKubeconfig env flags)
                        cc.cluster = true := by
                    cases hb :
                        env.kubeconfigMatchesCluster (resolvedKubeconfig env flags)
                          cc.cluster
                    · exact absurd hb hm
                    · rfl
                  have hexec := execDiff_no_diff_of_uid_mismatch env
                    { cc with
                        kubeConfigPath := resolvedKubeconfig env flags,
                        subpaths := flags.subpaths }
                    flags.simpleOutput hu.1 hu.2
                  cases herr :
                      (execDiff env
                        { cc with
                            kubeConfigPath := resolvedKubeconfig env flags,
                            subpaths := flags.subpaths }
                        flags.simpleOutput).1.err with
                  | some e =>
                    simp [diffClusterPath, hload, hver, hexp, hdir, hkc, hm', herr,
                      hexec.1, hexec.2]
                  | none =>
                    cases hres :
                        (execDiff env
                          { cc with
                              kubeConfigPath := resolvedKubeconfig env flags,
                              subpaths := flags.subpaths }
                          flags.simpleOutput).1.results with
                    | some rs =>
                      simp [diffClusterPath, hload, hver, hexp, hdir, hkc, hm', herr,
                        hres, hexec.1, hexec.2]
                    | none =>
                      simp [diffClusterPath, hload, hver, hexp, hdir, hkc, hm', herr,
                        hres, hexec.1, hexec.2]

/-- Witness for C3: with a kubeconfig that never references the expected
cluster, no diff mechanism is invoked. -/
theorem identity_checks_precede_diff_witness :
    DiffEvent.diffCall ∉ (diffClusterPath envNoMatch flagsKC).2
    ∧ DiffEvent.diffStructuredCall ∉ (diffClusterPath envNoMatch flagsKC).2 :=
  identity_checks_precede_diff envNoMatch flagsKC (Or.inl (fun _ _ => rfl))

/-- Claim C4: kubeconfig resolution follows the chain flag, then
environment, then error — when the `--kubeconfig` flag is non-empty the
identity check runs against it; otherwise, when the `KUBECONFIG` variable is
non-empty the identity check runs against that; otherwise `diffClusterPath`
fails with the configuration error and neither identity check nor identifier
lookup nor diff ever runs. -/
theorem kubeconfig_resolution_chain (env : DiffEnv) (flags : DiffFlags)
    (cc : ClusterConfig)
    (hload : env.loadClusterConfig = Except.ok cc)
    (hver : env.checkVersion = none)
    (hexp : flags.expand = true → env.expandCluster = none)
    (hdir : env.dirExists = Except.ok true) :
    (flags.kubeConfig ≠ "" →
      DiffEvent.kubeconfigCheck flags.kubeConfig cc.cluster
        ∈ (diffClusterPath env flags).2)
    ∧ (flags.kubeConfig = "" → env.kubeEnvVar ≠ "" →
      DiffEvent.kubeconfigCheck env.kubeEnvVar cc.cluster
        ∈ (diffClusterPath env flags).2)
    ∧ (flags.kubeConfig = "" → env.kubeEnvVar = "" →
      (diffClusterPath env flags).1 = some noKubeconfigMsg
      ∧ (∀ p c, DiffEvent.kubeconfigCheck p c ∉ (diffClusterPath env flags).2)
      ∧ (∀ ns, DiffEvent.getNamespaceUID ns ∉ (diffClusterPath env flags).2)
      ∧ DiffEvent.diffCall ∉ (diffClusterPath env flags).2
      ∧ DiffEvent.diffStructuredCall ∉ (diffClusterPath env flags).2) := by
  have hexp' : (if flags.expand then env.expandCluster else none) = none := by
    cases hfe : flags.expand with
    | true => exact hexp hfe
    | false => simp
  have hcheck : ∀ kc, resolvedKubeconfig env flags = kc → kc ≠ "" →
      DiffEvent.kubeconfigCheck kc cc.cluster ∈ (diffClusterPath env flags).2 := by
    intro kc hres hkc
    by_cases hm : env.kubeconfigMatchesCluster kc cc.cluster = false
    · simp [diffClusterPath, hload, hver, hexp', hdir, hres, hkc, hm]
    · have hm' : env.kubeconfigMatchesCluster kc cc.cluster = true := by
        cases hb : env.kubeconfigMatchesCluster kc cc.cluster
        · exact absurd hb hm
        · rfl
      cases herr :
          (execDiff env
            { cc with kubeConfigPath := kc, subpaths := flags.subpaths }
            flags.simpleOutput).1.err with
      | some e =>
        simp [diffClusterPath, hload, hver, hexp', hdir, hres, hkc, hm', herr]
      | none =>
        cases hrr :
            (execDiff env
              { cc with kubeConfigPath := kc, subpaths := flags.subpaths }
              flags.simpleOutput).1.results with
        | some rs =>
          simp [diffClusterPath, hload, hver, hexp', hdir, hres, hkc, hm', herr, hrr]
        | none =>
          simp [diffClusterPath, hload, hver, hexp', hdir, hres, hkc, hm', herr, hrr]
  refine ⟨?_, ?_, ?_⟩
  · intro hf
    exact hcheck flags.kubeConfig (by simp [resolvedKubeconfig, hf]) hf
  · intro hf he
    exact hcheck env.kubeEnvVar (by simp [resolvedKubeconfig, hf]) he
  · intro hf he
    have hres : resolvedKubeconfig env flags = "" := by
      simp [resolvedKubeconfig, hf, he]
    simp [diffClusterPath, hload, hver, hexp', hdir, hres]

/-- Witness for C4: with an empty flag and an empty environment variable,
the configuration error is returned and no identity check or diff runs. -/
theorem kubeconfig_resolution_chain_witness :
    (diffClusterPath envNoKube flagsEmpty).1 = some noKubeconfigMsg
    ∧ DiffEvent.diffCall ∉ (diffClusterPath envNoKube flagsEmpty).2
    ∧ DiffEvent.diffStructuredCall ∉ (diffClusterPath envNoKube flagsEmpty).2 := by
  have h := kubeconfig_resolution_chain envNoKube flagsEmpty ccSample rfl rfl
    (fun _ => rfl) rfl
  have h3 := h.2.2 rfl rfl
  exact ⟨h3.1, h3.2.2.2.1, h3.2.2.2.2⟩

/-! ## Output-mode and error-propagation theorems -/

/-- Claim C5: on success one diff invocation yields either a raw text
result or a structured result set but never both — in simple-output mode
`execDiff` returns a nil structured result with the raw text, and in
structured mode it returns the structured results with an empty raw text
string. -/
theorem execDiff_output_modes (env : DiffEnv) (cc : ClusterConfig) (so : Bool)
    (hok : (execDiff env cc so).1.err = none) :
    (so = true → (execDiff env cc so).1.results = none
      ∧ (execDiff env cc so).1.rawDiffs = env.diffResult.1)
    ∧ (so = false → (execDiff env cc so).1.rawDiffs = ""
      ∧ (execDiff env cc so).1.results = env.diffStructuredResult.1)
    ∧ ((execDiff env cc so).1.results = none
       ∨ (execDiff env cc so).1.rawDiffs = "") := by
  cases hnc : env.newClientErr with
  | some e => simp [execDiff, hnc] at hok
  | none =>
    by_cases huid : cc.uid = ""
    · cases so with
      | true => simp [execDiff, hnc, huid, execDiffRun]
      | false => simp [execDiff, hnc, huid, execDiffRun]
    · cases hns : env.getNamespaceUID "kube-system" with
      | error e => simp [execDiff, hnc, huid, hns] at hok
      | ok actual =>
        by_cases heq : cc.uid = actual
        · have hane : actual ≠ "" := by rw [← heq]; exact huid
          cases so with
          | true => simp [execDiff, hnc, huid, hns, heq, hane, execDiffRun]
          | false => simp [execDiff, hnc, huid, hns, heq, hane, execDiffRun]
        · simp [execDiff, hnc, huid, hns, heq] at hok

/-- Witness for C5: a successful structured-mode invocation returns an empty
raw text string alongside the structured results. -/
theorem execDiff_output_modes_witness :
    ((execDiff envBase ccNoUID false).1.rawDiffs = ""
      ∧ (execDiff envBase ccNoUID false).1.results = envBase.diffStructuredResult.1)
    ∧ ((execDiff envBase ccNoUID false).1.results = none
       ∨ (execDiff envBase ccNoUID false).1.rawDiffs = "") := by
  have h := execDiff_output_modes envBase ccNoUID false rfl
  exact ⟨h.2.1 rfl, h.2.2⟩

/-- Claim C6: when the underlying diff invocation fails, `diffClusterPath`
returns the originating error value unmodified and logs the human-readable
hint that diffs will not work if the target namespaces do not exist on the
live cluster. -/
theorem diff_error_propagation (env : DiffEnv) (flags : DiffFlags)
    (cc : ClusterConfig) (e : String)
    (hload : env.loadClusterConfig = Except.ok cc)
    (hver : env.checkVersion = none)
    (hexp : flags.expand = true → env.expandCluster = none)
    (hdir : env.dirExists = Except.ok true)
    (hkc : resolvedKubeconfig env flags ≠ "")
    (hmatch :
      env.kubeconfigMatchesCluster (resolvedKubeconfig env flags) cc.cluster = true)
    (hexec :
      (execDiff env
        { cc with
            kubeConfigPath := resolvedKubeconfig env flags,
            subpaths := flags.subpaths }
        flags.simpleOutput).1.err = some e) :
    (diffClusterPath env flags).1 = some e
    ∧ DiffEvent.logInfo diffHintMsg ∈ (diffClusterPath env flags).2
    ∧ DiffEvent.logError ("Error running diff: " ++ e)
        ∈ (diffClusterPath env flags).2 := by
  have hexp' : (if flags.expand then env.expandCluster else none) = none := by
    cases hfe : flags.expand with
    | true => exact hexp hfe
    | false => simp
  simp [diffClusterPath, hload, hver, hexp', hdir, hkc, hmatch, hexec]

/-- Witness for C6: a failing structured diff propagates its error `boom`
unmodified and logs the namespace hint. -/
theorem diff_error_propagation_witness :
    (diffClusterPath envDiffErr flagsKC).1 = some "boom"
    ∧ DiffEvent.logInfo diffHintMsg ∈ (diffClusterPath envDiffErr flagsKC).2 := by
  have h := diff_error_propagation envDiffErr flagsKC ccSample "boom" rfl rfl
    (fun _ => rfl) rfl (by decide) rfl rfl
  exact ⟨h.1, h.2.1⟩

/-- Every cluster client `execDiff` constructs uses the one hard-coded
client configuration: consistency checking off and locking disabled. -/
theorem execDiff_newClient_config (env : DiffEnv) (cc : ClusterConfig) (so : Bool)
    (cfg : ClusterClientConfig)
    (h : DiffEvent.newClient cfg ∈ (execDiff env cc so).2) :
    cfg = { checkApplyConsistency := false, debug := env.debug, useLocks := false } := by
  cases hnc : env.newClientErr with
  | some e =>
    simp [execDiff, hnc] at h
    exact h
  | none =>
    by_cases huid : cc.uid = ""
    · cases so with
      | true =>
        simp [execDiff, hnc, huid, execDiffRun] at h
        exact h
      | false =>
        simp [execDiff, hnc, huid, execDiffRun] at h
        exact h
    · cases hns : env.getNamespaceUID "kube-system" with
      | error e =>
        simp [execDiff, hnc, huid, hns] at h
        exact h
      | ok actual =>
        by_cases heq : cc.uid = actual
        · have hane : actual ≠ "" := by rw [← heq]; exact huid
          cases so with
          | true =>
            simp [execDiff, hnc, huid, hns, heq, hane, execDiffRun] at h
            exact h
          | false =>
            simp [execDiff, hnc, huid, hns, heq, hane, execDiffRun] at h
            exact h
        · simp [execDiff, hnc, huid, hns, heq] at h
          exact h

/-- Claim C9: for every diff invocation the cluster client is constructed
with locking disabled — every client configuration appearing in the trace
has `UseLocks` false, so no per-cluster lock is ever taken on the diff
path. -/
theorem diff_never_locks (env : DiffEnv) (flags : DiffFlags) :
    ∀ cfg, DiffEvent.newClient cfg ∈ (diffClusterPath env flags).2 →
      cfg.useLocks = false := by
  have hexecCfg : ∀ cc so cfg,
      DiffEvent.newClient cfg ∈ (execDiff env cc so).2 → cfg.useLocks = false := by
    intro cc so cfg hm
    rw [execDiff_newClient_config env cc so cfg hm]
  cases hload : env.loadClusterConfig with
  | error e => simp [diffClusterPath, hload]
  | ok cc =>
    cases hver : env.checkVersion with
    | some e => simp [diffClusterPath, hload, hver]
    | none =>
      cases hexp : (if flags.expand then env.expandCluster else none) with
      | some e => simp [diffClusterPath, hload, hver, hexp]
      | none =>
        cases hdir : env.dirExists with
        | error e => simp [diffClusterPath, hload, hver, hexp, hdir]
        | ok b =>
          cases b with
          | false => simp [diffClusterPath, hload, hver, hexp, hdir]
          | true =>
            by_cases hkc : resolvedKubeconfig env flags = ""
            · simp [diffClusterPath, hload, hver, hexp, hdir, hkc]
            · by_cases hm :
                  env.kubeconfigMatchesCluster (resolvedKubeconfig env flags)
                    cc.cluster = false
              · simp [diffClusterPath, hload, hver, hexp, hdir, hkc, hm]
              · have hm' :
                    env.kubeconfigMatchesCluster (resolvedKubeconfig env flags)
                      cc.cluster = true := by
                  cases hb :
                      env.kubeconfigMatchesCluster (resolvedKubeconfig env flags)
                        cc.cluster
                  · exact absurd hb hm
                  · rfl
                set cc' : ClusterConfig :=
                  { cc with
                      kubeConfigPath := resolvedKubeconfig env flags,
                      subpaths := flags.subpaths } with hcc
                cases herr : (execDiff env cc' flags.simpleOutput).1.err with
                | some e =>
                  intro cfg hmem
                  simp [diffClusterPath, hload, hver, hexp, hdir, hkc, hm', herr,
                    ← hcc, List.mem_append] at hmem
                  exact hexecCfg cc' flags.simpleOutput cfg hmem
                | none =>
                  cases hres : (execDiff env cc' flags.simpleOutput).1.results with
                  | some rs =>
                    intro cfg hmem
                    simp [diffClusterPath, hload, hver, hexp, hdir, hkc, hm', herr,
                      hres, ← hcc, List.mem_append] at hmem
                    exact hexecCfg cc' flags.simpleOutput cfg hmem
                  | none =>
                    intro cfg hmem
                    simp [diffClusterPath, hload, hver, hexp, hdir, hkc, hm', herr,
                      hres, ← hcc, List.mem_append] at hmem
                    exact hexecCfg cc' flags.simpleOutput cfg hmem

/-- Witness for C9: the one client configuration that appears in the
baseline run has locking disabled. -/
theorem diff_never_locks_witness :
    ClusterClientConfig.useLocks
      { checkApplyConsistency := false, debug := false, useLocks := false } = false :=
  diff_never_locks envBase flagsKC
    { checkApplyConsistency := false, debug := false, useLocks := false } (by decide)

/-! ## kdiff theorems -/

/-- Claim C10: `kdiffRun` returns an error for every argument list whose
length is not exactly two, so the guarded branch that parses a third
argument into `shortDiff` is unreachable and `DiffKube` is always invoked
with `shortDiff` false. -/
theorem kdiffRun_two_args (env : KdiffEnv) (args : List String) :
    (args.length ≠ 2 →
      (kdiffRun env args).1 = Except.error "Expected exactly two arguments")
    ∧ (∀ a b s, KdiffEvent.diffKube a b s ∈ (kdiffRun env args).2 → s = false) := by
  by_cases hlen : args.length = 2
  · obtain ⟨x, y, rfl⟩ := List.length_eq_two.mp hlen
    constructor
    · intro hne
      exact absurd rfl hne
    · intro a b s hmem
      cases hdk : env.diffKube x y false with
      | error e =>
        simp [kdiffRun, hdk] at hmem
        exact hmem.2.2
      | ok rs =>
        simp [kdiffRun, hdk] at hmem
        exact hmem.2.2
  · constructor
    · intro _
      simp [kdiffRun, hlen]
    · intro a b s hmem
      simp [kdiffRun, hlen] at hmem

/-- Witness for C10: a one-element argument list is rejected with the
exact-arity error. -/
theorem kdiffRun_two_args_witness :
    (kdiffRun envKdiff ["only-one"]).1 =
      Except.error "Expected exactly two arguments" :=
  (kdiffRun_two_args envKdiff ["only-one"]).1 (by decide)

/-- Rendering a single-field object named `results` at top level yields the
fixed envelope shape around the rendered field value. -/
theorem renderObj_single_results (v : String) :
    renderObj 0 [("results", v)] = "\x7b\n  \"results\": " ++ v ++ "\n\x7d" := by
  have h2 : spacesN 2 = "  " := by decide
  have h0 : spacesN 0 = "" := by decide
  have hr : renderString "results" = "\"results\"" := by decide
  have hM : ("  " ++ "\"results\"") ++ ": " = "  \"results\": " := by decide
  have hP : "\x7b\n" ++ "  \"results\": " = "\x7b\n  \"results\": " := by decide
  have hT : "\n" ++ "\x7d" = "\n\x7d" := by decide
  simp only [renderObj, List.map_cons, List.map_nil, joinSep, h2, h0, hr]
  rw [hM, ← String.append_assoc, hP, String.append_empty,
    String.append_assoc _ "\n" "\x7d", hT]

/-- Claim C8: the kdiff command serializes its result set wrapped in the
envelope with the single named top-level field holding the ordered record
array, emitted as indented JSON; the top-level shape is the same for every
record count, including zero. -/
theorem kdiff_envelope_shape (env : KdiffEnv) (a b : String) (rs : List Result)
    (h : env.diffKube a b false = Except.ok rs) :
    (kdiffRun env [a, b]).2 =
      [KdiffEvent.diffKube a b false,
       KdiffEvent.println (marshalResults { results := rs })]
    ∧ ∃ body, marshalResults { results := rs } =
        "\x7b\n  \"results\": " ++ body ++ "\n\x7d" := by
  constructor
  · simp [kdiffRun, h]
  · exact ⟨renderArr 2 (rs.map (renderResultJson 4)), renderObj_single_results _⟩

/-- Witness for C8: with an empty record list, the kdiff trace ends in the
serialized envelope, which still has the stable top-level shape. -/
theorem kdiff_envelope_shape_witness :
    (kdiffRun envKdiff ["old", "new"]).2 =
      [KdiffEvent.diffKube "old" "new" false,
       KdiffEvent.println (marshalResults { results := [] })]
    ∧ ∃ body, marshalResults { results := ([] : List Result) } =
        "\x7b\n  \"results\": " ++ body ++ "\n\x7d" :=
  kdiff_envelope_shape envKdiff "old" "new" [] rfl
